import Mathlib

/-
Verification of the News-Briefing aggregation-and-ranking pipeline.

Shallow embedding of the core pipeline of the repository:
  * app/utils.py            (fingerprint_article)
  * app/coordinator.py      (generate_briefing and its stages)
  * app/tools/rss_fetcher.py (feed table, tolerant category lookup, fetch_rss)

External collaborators (the RSS network layer, the summarizer, the
categorizer, the memory store, the random shuffle) are modelled as explicit
function parameters, exactly as the spec treats them (interfaces only).
Machine integers are modelled as Nat/Int; Python `int(x)` truncation toward
zero is `Int.tdiv`, Python `//` floor division is `Int.fdiv`.
-/

namespace NewsBriefing

/-- Raw candidate article, pre-enrichment.  Python dict fields; string
fields absent from a dict are read with `.get(k, "")`, so they are plain
`String` here with `""` for "absent"; `category` and `fingerprint` are read
with `.get(k)` / `setdefault`, so presence matters and they are `Option`. -/
structure Article where
  title : String
  snippet : String
  url : String
  published : String
  image : String
  category : Option String
  fingerprint : Option String
deriving Repr, DecidableEq

/-! ### SHA-256 (hashlib.sha256(...).hexdigest() in app/utils.py)

A word is a `Nat` kept below `2^32` by explicit `% 2^32` masking. -/

namespace SHA256

def wordMod : Nat := 4294967296

def add32 (a b : Nat) : Nat := (a + b) % wordMod

def rotr (n x : Nat) : Nat := ((x >>> n) ||| (x <<< (32 - n))) % wordMod

def bsig0 (x : Nat) : Nat := (rotr 2 x) ^^^ (rotr 13 x) ^^^ (rotr 22 x)

def bsig1 (x : Nat) : Nat := (rotr 6 x) ^^^ (rotr 11 x) ^^^ (rotr 25 x)

def ssig0 (x : Nat) : Nat := (rotr 7 x) ^^^ (rotr 18 x) ^^^ (x >>> 3)

def ssig1 (x : Nat) : Nat := (rotr 17 x) ^^^ (rotr 19 x) ^^^ (x >>> 10)

def ch (x y z : Nat) : Nat := (x &&& y) ^^^ ((x ^^^ 4294967295) &&& z)

def maj (x y z : Nat) : Nat := (x &&& y) ^^^ (x &&& z) ^^^ (y &&& z)

def K : List Nat :=
  [1116352408, 1899447441, 3049323471, 3921009573,
   961987163, 1508970993, 2453635748, 2870763221,
   3624381080, 310598401, 607225278, 1426881987,
   1925078388, 2162078206, 2614888103, 3248222580,
   3835390401, 4022224774, 264347078, 604807628,
   770255983, 1249150122, 1555081692, 1996064986,
   2554220882, 2821834349, 2952996808, 3210313671,
   3336571891, 3584528711, 113926993, 338241895,
   666307205, 773529912, 1294757372, 1396182291,
   1695183700, 1986661051, 2177026350, 2456956037,
   2730485921, 2820302411, 3259730800, 3345764771,
   3516065817, 3600352804, 4094571909, 275423344,
   430227734, 506948616, 659060556, 883997877,
   958139571, 1322822218, 1537002063, 1747873779,
   1955562222, 2024104815, 2227730452, 2361852424,
   2428436474, 2756734187, 3204031479, 3329325298]

/-- The eight 32-bit working registers of the compression function. -/
structure Hash where
  a : Nat
  b : Nat
  c : Nat
  d : Nat
  e : Nat
  f : Nat
  g : Nat
  h : Nat

def H0 : Hash :=
  ⟨1779033703, 3144134277, 1013904242, 2773480762,
   1359893119, 2600822924, 528734635, 1541459225⟩

/-- Big-endian 8-byte encoding of the bit length. -/
def lenBytes (n : Nat) : List Nat :=
  [(n >>> 56) % 256, (n >>> 48) % 256, (n >>> 40) % 256, (n >>> 32) % 256,
   (n >>> 24) % 256, (n >>> 16) % 256, (n >>> 8) % 256, n % 256]

/-- Merkle–Damgård padding: append 0x80, zero bytes up to 56 mod 64, then
the 64-bit big-endian bit length. -/
def padBytes (msg : List Nat) : List Nat :=
  let len := msg.length
  let zeros := (120 - ((len + 1) % 64)) % 64
  msg ++ [0x80] ++ List.replicate zeros 0 ++ lenBytes (8 * len)

/-- Big-endian packing of bytes into 32-bit words. -/
def bytesToWords : List Nat → List Nat
  | b0 :: b1 :: b2 :: b3 :: rest =>
      (((b0 * 256 + b1) * 256 + b2) * 256 + b3) :: bytesToWords rest
  | _ => []

/-- Split a word list into blocks of 16 words. -/
def chunks16 : List Nat → List (List Nat)
  | [] => []
  | w :: ws =>
      ((w :: ws).take 16) :: chunks16 ((w :: ws).drop 16)
termination_by ws => ws.length
decreasing_by simp; omega

/-- Message-schedule extension: `acc` holds the schedule so far in reverse,
`n` counts the remaining words (48 for SHA-256). -/
def scheduleAux : Nat → List Nat → List Nat
  | 0, acc => acc.reverse
  | n + 1, acc =>
      let w := add32 (add32 (ssig1 (acc.getD 1 0)) (acc.getD 6 0))
                     (add32 (ssig0 (acc.getD 14 0)) (acc.getD 15 0))
      scheduleAux n (w :: acc)

def schedule (block : List Nat) : List Nat :=
  scheduleAux 48 block.reverse

def compressStep (st : Hash) (wk : Nat × Nat) : Hash :=
  let t1 := add32 (add32 (add32 st.h (bsig1 st.e)) (add32 (ch st.e st.f st.g) wk.2)) wk.1
  let t2 := add32 (bsig0 st.a) (maj st.a st.b st.c)
  ⟨add32 t1 t2, st.a, st.b, st.c, add32 st.d t1, st.e, st.f, st.g⟩

def compressBlock (st : Hash) (block : List Nat) : Hash :=
  let fin := ((schedule block).zip K).foldl compressStep st
  ⟨add32 st.a fin.a, add32 st.b fin.b, add32 st.c fin.c, add32 st.d fin.d,
   add32 st.e fin.e, add32 st.f fin.f, add32 st.g fin.g, add32 st.h fin.h⟩

def hashBytes (msg : List Nat) : Hash :=
  (chunks16 (bytesToWords (padBytes msg))).foldl compressBlock H0

def hexDigit (n : Nat) : Char :=
  if n < 10 then Char.ofNat (48 + n) else Char.ofNat (87 + n)

/-- Eight hex digits of a 32-bit word, most significant nibble first. -/
def hexWord (w : Nat) : List Char :=
  [hexDigit ((w >>> 28) % 16), hexDigit ((w >>> 24) % 16),
   hexDigit ((w >>> 20) % 16), hexDigit ((w >>> 16) % 16),
   hexDigit ((w >>> 12) % 16), hexDigit ((w >>> 8) % 16),
   hexDigit ((w >>> 4) % 16), hexDigit (w % 16)]

/-- Hex digest of a byte string, as `hashlib.sha256(bytes).hexdigest()`. -/
def sha256hex (msg : List Nat) : String :=
  let st := hashBytes msg
  String.mk (hexWord st.a ++ hexWord st.b ++ hexWord st.c ++ hexWord st.d ++
             hexWord st.e ++ hexWord st.f ++ hexWord st.g ++ hexWord st.h)

theorem hexWord_length (w : Nat) : (hexWord w).length = 8 := rfl

theorem sha256hex_length (msg : List Nat) : (sha256hex msg).length = 64 := by
  simp [sha256hex, String.length, hexWord_length]

theorem sha256hex_ne_empty (msg : List Nat) : sha256hex msg ≠ "" := by
  intro h
  have := sha256hex_length msg
  rw [h] at this
  simp [String.length] at this

end SHA256

/-- UTF-8 encoding of one character (Python `str.encode("utf-8")`). -/
def charUtf8 (c : Char) : List Nat :=
  let n := c.toNat
  if n < 128 then [n]
  else if n < 2048 then [192 ||| (n >>> 6), 128 ||| (n &&& 63)]
  else if n < 65536 then
    [224 ||| (n >>> 12), 128 ||| ((n >>> 6) &&& 63), 128 ||| (n &&& 63)]
  else
    [240 ||| (n >>> 18), 128 ||| ((n >>> 12) &&& 63),
     128 ||| ((n >>> 6) &&& 63), 128 ||| (n &&& 63)]

def utf8Bytes (s : String) : List Nat := s.data.flatMap charUtf8

/-- The pre-hash key of app/utils.py: `item.get("title","") + "|" + item.get("url","")`. -/
def hashKey (item : Article) : String := item.title ++ "|" ++ item.url

/-- app/utils.py `fingerprint_article`: sha256 hex digest of the UTF-8
encoding of `title + "|" + url`. -/
def fingerprint_article (item : Article) : String :=
  SHA256.sha256hex (utf8Bytes (hashKey item))

theorem fingerprint_article_length (item : Article) :
    (fingerprint_article item).length = 64 :=
  SHA256.sha256hex_length _

theorem fingerprint_article_ne_empty (item : Article) :
    fingerprint_article item ≠ "" :=
  SHA256.sha256hex_ne_empty _

/-! ### Python string primitives used by the pipeline -/

/-- Python `s.lower()`, character by character (the category keys and
requests handled here are ASCII, where this is exact). -/
def pyLower (s : String) : String := ⟨s.data.map Char.toLower⟩

/-- Python `s.strip()`: remove leading and trailing whitespace. -/
def pyStrip (s : String) : String :=
  ⟨((s.data.dropWhile Char.isWhitespace).reverse.dropWhile
      Char.isWhitespace).reverse⟩

/-- Lexicographic code-point comparison of char lists (Python `<=` on
strings). -/
def charListLe : List Char → List Char → Bool
  | [], _ => true
  | _ :: _, [] => false
  | a :: as, b :: bs =>
      if a.toNat < b.toNat then true
      else if b.toNat < a.toNat then false
      else charListLe as bs

def pyStrLe (a b : String) : Bool := charListLe a.data b.data

/-! ### app/tools/rss_fetcher.py — feed table and category selection -/

/-- The `RSS_FEEDS` dict of app/tools/rss_fetcher.py, in insertion order. -/
def RSS_FEEDS : List (String × List String) :=
  [("tech",
    ["https://www.theverge.com/tech/rss/index.xml",
     "https://techcrunch.com/feed/",
     "https://www.wired.com/feed/category/gear/latest/rss",
     "https://feeds.arstechnica.com/arstechnica/technology-lab",
     "https://www.engadget.com/rss.xml"]),
   ("world",
    ["http://feeds.bbci.co.uk/news/world/rss.xml",
     "https://rss.nytimes.com/services/xml/rss/nyt/World.xml",
     "https://www.aljazeera.com/xml/rss/all.xml"]),
   ("business",
    ["http://feeds.bbci.co.uk/news/business/rss.xml",
     "https://www.ft.com/?format=rss",
     "https://www.forbes.com/business/feed/"]),
   ("sports",
    ["https://www.espn.com/espn/rss/news",
     "http://feeds.bbci.co.uk/sport/rss.xml?edition=uk",
     "https://www.cbssports.com/rss/headlines/"]),
   ("health",
    ["https://rss.nytimes.com/services/xml/rss/nyt/Health.xml",
     "http://feeds.bbci.co.uk/news/health/rss.xml",
     "https://www.medicalnewstoday.com/rss"]),
   ("entertainment",
    ["http://feeds.bbci.co.uk/news/entertainment_and_arts/rss.xml",
     "https://variety.com/feed/",
     "https://www.rollingstone.com/culture/culture-news/feed/"]),
   ("science",
    ["https://www.sciencedaily.com/rss/all.xml",
     "https://www.nasa.gov/rss/dyn/breaking_news.rss",
     "https://www.livescience.com/feeds/all"]),
   ("india",
    ["https://timesofindia.indiatimes.com/rssfeedstopstories.cms",
     "https://www.hindustantimes.com/rss/feeds/homepage/rssfeed.xml",
     "https://www.thehindu.com/news/national/feeder/default.rss"])]

/-- `RSS_FEEDS.get(k)` of the Python dict. -/
def dictGet (k : String) : Option (List String) :=
  (RSS_FEEDS.find? (fun p => p.1 == k)).map (fun p => p.2)

/-- `SUPPORTED_CATEGORIES = sorted(list(RSS_FEEDS.keys()))` (Python
`sorted` on strings: lexicographic by code point). -/
def SUPPORTED_CATEGORIES : List String :=
  List.insertionSort (fun a b => pyStrLe a b = true) (RSS_FEEDS.map (fun p => p.1))

/-- Python `s.rstrip("s")`: remove every trailing `'s'`. -/
def pyRstripS (s : String) : String :=
  ⟨(s.data.reverse.dropWhile (fun c => c = 's')).reverse⟩

/-- Python `A or B` on dict-lookup results: `None` and the empty list are
falsy, so they fall through to `B`. -/
def pyOrFeeds : Option (List String) → Option (List String) →
    Option (List String)
  | some (x :: xs), _ => some (x :: xs)
  | some [], b => b
  | none, b => b

/-- Feed-list selection of `fetch_rss` (rss_fetcher.py lines 169-183):
`cat = (category or "tech").lower()`, tolerant lookup of `cat`, then
`cat.rstrip("s")`, then `cat + "s"`, and finally the `tech` fallback.
(The `isinstance(feeds, str)` branch is dead here: every value of the
table is a list.) -/
def selectFeeds (category : Option String) : List String :=
  let raw := match category with
    | some c => if c = "" then "tech" else c
    | none => "tech"
  let cat := pyLower raw
  let feeds := pyOrFeeds (dictGet cat)
      (pyOrFeeds (dictGet (pyRstripS cat)) (dictGet (cat ++ "s")))
  match feeds with
  | some (f :: fs) => f :: fs
  | _ => (dictGet "tech").getD []

/-- Python slice `l[:n]` for an `int` bound: nonnegative `n` keeps the
first `n` elements, negative `n` drops the last `|n|`. -/
def pySliceTo (n : Int) (l : List α) : List α :=
  if 0 ≤ n then l.take n.toNat else l.take (l.length - (-n).toNat)

/-- Intra-`fetch_rss` dedup key:
`((a.get("url") or "").split("?")[0] + "|" + (a.get("title") or "")).lower().strip()`. -/
def rssKey (a : Article) : String :=
  pyStrip (pyLower ((a.url.splitOn "?").headD "" ++ "|" ++ a.title))

/-- The inner per-feed loop of `fetch_rss`: skip an article whose key is
empty or already seen, otherwise append it and record the key. -/
def rssAdd : List Article → List String → List Article → List Article × List String
  | [], seen, acc => (acc, seen)
  | a :: rest, seen, acc =>
      let key := rssKey a
      if key = "" then rssAdd rest seen acc
      else if seen.contains key then rssAdd rest seen acc
      else rssAdd rest (key :: seen) (acc ++ [a])

/-- app/tools/rss_fetcher.py `fetch_rss`.  `parseFeed` stands for
`_parse_feed` (network-dependent; it returns `[]` on any internal error)
and `shuffle` for `random.shuffle` (a permutation). -/
def fetch_rss (parseFeed : String → Int → List Article)
    (shuffle : List Article → List Article)
    (category : Option String) (num : Int) : List Article :=
  let feed_urls := selectFeeds category
  let all_articles :=
    (feed_urls.foldl (fun st url => rssAdd (parseFeed url num) st.2 st.1) ([], [])).1
  pySliceTo num (shuffle all_articles)

/-! ### app/coordinator.py — the pipeline stages of generate_briefing

Confidence values are modelled as rationals: the Python floats involved
(collaborator confidences in `[0,1]`, the default `0.5`) are compared with
the IEEE order, which coincides with the rational order on these values. -/

/-- Return shape of the summarizer collaborator
(`call_gemini_summarize`): `summ.get("summary")`, `summ.get("tldr")`,
`summ.get("confidence", 0.5)`. -/
structure SummResult where
  summary : Option String
  tldr : Option String
  confidence : Option ℚ
deriving Repr, DecidableEq

/-- Item of the final briefing (coordinator.py lines 130-142). -/
structure Enriched where
  title : String
  snippet : String
  url : String
  category : String
  image : String
  summary : Option String
  tldr : Option String
  confidence : ℚ
  fingerprint : Option String
deriving Repr, DecidableEq

/-- The briefing dict built at coordinator.py lines 164-169. -/
structure Briefing where
  generated_at : ℚ
  items : List Enriched
  user_id : String
  selected_categories : List String
deriving Repr, DecidableEq

/-- Category normalization (coordinator.py lines 41-51): Python
`if categories:` is truthy only for a nonempty list; keep nonempty strings,
strip+lowercase, filter to `SUPPORTED_CATEGORIES`; an empty result becomes
`None`. -/
def normalizeCats (categories : Option (List String)) : Option (List String) :=
  match categories with
  | some (c0 :: rest) =>
      let cats := ((c0 :: rest).filter (fun c => c ≠ "")).map
        (fun c => pyLower (pyStrip c))
      let cats := cats.filter (fun c => SUPPORTED_CATEGORIES.contains c)
      match cats with
      | [] => none
      | c :: cs => some (c :: cs)
  | _ => none

/-- The (category, requested count) pairs of the fetch loop
(coordinator.py lines 57-78): explicit categories request
`max(top_n, 5)` each; otherwise the first five supported categories
request `max(3, top_n // 2)` each (`//` is Python floor division). -/
def fetchPlan (top_n : Int) (cats : Option (List String)) :
    List (String × Int) :=
  match cats with
  | some (c0 :: rest) => (c0 :: rest).map (fun c => (c, max top_n 5))
  | _ => (SUPPORTED_CATEGORIES.take 5).map
      (fun c => (c, max 3 (Int.fdiv top_n 2)))

/-- `arts` from a successful fetch get `a.setdefault("category", c)`. -/
def setDefaultCategory (c : String) (a : Article) : Article :=
  match a.category with
  | some _ => a
  | none => { a with category := some c }

/-- The fetch loop body: a raising fetch (`none`) is caught and
contributes nothing; a successful fetch is annotated and appended. -/
def doFetch (fetch : String → Int → Option (List Article))
    (plan : List (String × Int)) : List Article :=
  plan.foldl
    (fun acc p =>
      match fetch p.1 p.2 with
      | some arts => acc ++ arts.map (setDefaultCategory p.1)
      | none => acc) []

/-- Intra-pool dedup loop (coordinator.py lines 87-98): skip an article
whose fingerprint is empty (falsy) or already seen; otherwise store the
fingerprint on the article and keep it, first occurrence winning. -/
def dedupeGo : List Article → List String → List Article
  | [], _ => []
  | a :: rest, seen =>
      let fp := fingerprint_article a
      if fp = "" then dedupeGo rest seen
      else if seen.contains fp then dedupeGo rest seen
      else { a with fingerprint := some fp } :: dedupeGo rest (fp :: seen)

def dedupeStage (collected : List Article) : List Article :=
  dedupeGo collected []

/-- The minimum-yield threshold `max(1, int(top_n * 0.6))` of
coordinator.py lines 103 and 148.  For every `|top_n| < 2^50` the IEEE
double product `top_n * 0.6` truncates to the same integer as the exact
rational `3 * top_n / 5`, so Python `int(top_n * 0.6)` is
`Int.tdiv (3 * top_n) 5` (truncation toward zero). -/
def yieldThreshold (top_n : Int) : Int :=
  max 1 (Int.tdiv (3 * top_n) 5)

/-- History exclusion with its safety valve (coordinator.py lines
100-104): drop items fingerprinted in the previous briefing, unless the
rest would fall below the yield threshold, in which case the full deduped
pool is used. -/
def historySelect (deduped : List Article) (last_fps : List String)
    (top_n : Int) : List Article :=
  let unique := deduped.filter
    (fun u => !(last_fps.contains (u.fingerprint.getD "")))
  if (unique.length : Int) < yieldThreshold top_n then deduped else unique

/-- Per-item enrichment (coordinator.py lines 111-142).  `categorize`
stands for `categorize_article` and `summarize` for
`call_gemini_summarize`.  Python `or` falls back on empty strings. -/
def enrichItem (categorize : String → String → String)
    (summarize : String → String → String → Nat → SummResult)
    (a : Article) : Enriched :=
  let title := a.title
  let snippet := if a.snippet = "" then title else a.snippet
  let url := a.url
  let category := match a.category with
    | some c => if c = "" then categorize title snippet else c
    | none => categorize title snippet
  let summ := summarize title snippet url 2
  { title := title, snippet := snippet, url := url, category := category,
    image := a.image, summary := summ.summary, tldr := summ.tldr,
    confidence := summ.confidence.getD ((1 : ℚ) / 2),
    fingerprint := a.fingerprint }

/-- Explicit-category filter with its safety valve (coordinator.py lines
144-150): keep only requested categories unless that leaves fewer than
the yield threshold. -/
def filterStage (cats : Option (List String)) (top_n : Int)
    (results : List Enriched) : List Enriched :=
  match cats with
  | some (c0 :: rest) =>
      let filtered := results.filter (fun r => (c0 :: rest).contains r.category)
      if yieldThreshold top_n ≤ (filtered.length : Int) then filtered
      else results
  | _ => results

/-- First component of the sort key:
`r["category"] not in preferred_categories`. -/
def notPref (preferred_categories : List String) (r : Enriched) : Bool :=
  !(preferred_categories.contains r.category)

/-- The full sort key `(category not in preferred_categories, -confidence)`. -/
def rankKey (preferred_categories : List String) (r : Enriched) : Bool × ℚ :=
  (notPref preferred_categories r, -r.confidence)

/-- Ascending lexicographic comparison of sort keys (`False < True` on the
first component). -/
def rankLe (preferred_categories : List String) (r s : Enriched) : Bool :=
  (!(notPref preferred_categories r) && notPref preferred_categories s) ||
  (notPref preferred_categories r == notPref preferred_categories s &&
    decide (-r.confidence ≤ -s.confidence))

/-- The ranker (coordinator.py lines 152-159): Python `sorted` is a stable
sort by the ascending key, embedded as a stable merge sort. -/
def rank (preferred_categories : List String) (results : List Enriched) :
    List Enriched :=
  results.mergeSort (rankLe preferred_categories)

/-- Python `cats or []` on the normalized category option. -/
def pyOrNil (cats : Option (List String)) : List String :=
  match cats with
  | some (c :: cs) => c :: cs
  | _ => []

/-- app/coordinator.py `generate_briefing`.  External collaborators are
parameters: `fetch` is `fetch_rss` (`none` models a raised exception,
caught per category), `categorize`/`summarize` are the enrichment
collaborators, `shuffle` is `random.shuffle` (a permutation), `now` is
`time.time()`, and `preferred_categories`/`last_fps` are the two fields
read from the loaded memory document. -/
def generate_briefing (fetch : String → Int → Option (List Article))
    (categorize : String → String → String)
    (summarize : String → String → String → Nat → SummResult)
    (shuffle : List Article → List Article) (now : ℚ)
    (preferred_categories last_fps : List String)
    (user_id : String) (top_n : Int)
    (categories : Option (List String)) : Briefing :=
  let cats := normalizeCats categories
  let collected := doFetch fetch (fetchPlan top_n cats)
  let deduped := dedupeStage collected
  let unique := historySelect deduped last_fps top_n
  let shuffled := shuffle unique
  let results := shuffled.map (enrichItem categorize summarize)
  let results := filterStage cats top_n results
  let ranked := rank preferred_categories results
  let final := pySliceTo top_n ranked
  { generated_at := now, items := final, user_id := user_id,
    selected_categories := pyOrNil cats }

/-! ### Spec-side definitions used to compare the code with the spec text -/

/-- The threshold exactly as the spec sentence words it: `ceil(0.6 * top_n)`,
i.e. `⌈3·top_n/5⌉`. -/
def specCeilThreshold (top_n : Int) : Int := -(Int.fdiv (-(3 * top_n)) 5)

/-- History exclusion as the spec sentence words it: discard the exclusion
exactly when the excluded pool is smaller than `ceil(0.6 * top_n)`. -/
def specHistorySelect (deduped : List Article) (last_fps : List String)
    (top_n : Int) : List Article :=
  let excluded := deduped.filter
    (fun u => !(last_fps.contains (u.fingerprint.getD "")))
  if (excluded.length : Int) < specCeilThreshold top_n then deduped
  else excluded

/-- Category filter as the spec sentence words it: replace by the filtered
sub-list exactly when it has at least `ceil(0.6 * top_n)` items. -/
def specFilterStage (cats : Option (List String)) (top_n : Int)
    (results : List Enriched) : List Enriched :=
  match cats with
  | some (c0 :: rest) =>
      let filtered := results.filter (fun r => (c0 :: rest).contains r.category)
      if specCeilThreshold top_n ≤ (filtered.length : Int) then filtered
      else results
  | _ => results

/-! ### Claims about the fingerprint (C2, C7) -/

/-- C7: the fingerprint is a pure, total function of `title` and `url`
alone: two articles agreeing on those two fields get the same fingerprint,
whatever their snippet, image, published date, category or stored
fingerprint, and the computation always yields a 64-character hex digest
(it never fails). -/
theorem fingerprint_deterministic (a b : Article)
    (ht : a.title = b.title) (hu : a.url = b.url) :
    fingerprint_article a = fingerprint_article b ∧
    (fingerprint_article a).length = 64 := by
  constructor
  · have hk : hashKey a = hashKey b := by
      simp [hashKey, ht, hu]
    exact congrArg (fun s => SHA256.sha256hex (utf8Bytes s)) hk
  · exact fingerprint_article_length a

/-- Witness for C7: two concrete articles equal in title and url and
different everywhere else share a fingerprint. -/
theorem fingerprint_deterministic_witness :
    (⟨"T", "s1", "U", "p1", "i1", none, none⟩ : Article).title =
        (⟨"T", "s2", "U", "p2", "i2", some "tech", some "f"⟩ : Article).title ∧
    fingerprint_article ⟨"T", "s1", "U", "p1", "i1", none, none⟩ =
        fingerprint_article ⟨"T", "s2", "U", "p2", "i2", some "tech", some "f"⟩ :=
  ⟨rfl, (fingerprint_deterministic ⟨"T", "s1", "U", "p1", "i1", none, none⟩
    ⟨"T", "s2", "U", "p2", "i2", some "tech", some "f"⟩ rfl rfl).1⟩

/-- C2 counterexample: the two articles `("a|b", "c")` and `("a", "b|c")`
differ in the title field and in the url field, yet both hash keys are the
string `"a|b|c"`, so their fingerprints are equal — the claim that any
difference in either field forces different fingerprints is false. -/
theorem fingerprint_collision_cex :
    (⟨"a|b", "", "c", "", "", none, none⟩ : Article).title ≠
        (⟨"a", "", "b|c", "", "", none, none⟩ : Article).title ∧
    (⟨"a|b", "", "c", "", "", none, none⟩ : Article).url ≠
        (⟨"a", "", "b|c", "", "", none, none⟩ : Article).url ∧
    fingerprint_article ⟨"a|b", "", "c", "", "", none, none⟩ =
        fingerprint_article ⟨"a", "", "b|c", "", "", none, none⟩ := by
  refine ⟨by decide, by decide, ?_⟩
  exact congrArg (fun s => SHA256.sha256hex (utf8Bytes s)) (by decide)

/-- C2 (amended): the fingerprint input is the combined key
`title + "|" + url`.  Articles that agree on one of the two fields and
differ in the other always have different keys (so, barring a SHA-256
collision between those distinct keys, different fingerprints), but
articles differing in both fields may share the key — and equal keys give
equal fingerprints with certainty. -/
theorem fingerprintKey_separator (a b : Article) :
    (a.title = b.title → a.url ≠ b.url → hashKey a ≠ hashKey b) ∧
    (a.url = b.url → a.title ≠ b.title → hashKey a ≠ hashKey b) ∧
    (hashKey a = hashKey b → fingerprint_article a = fingerprint_article b) := by
  refine ⟨?_, ?_, ?_⟩
  · intro ht hu hk
    apply hu
    have hd := congrArg String.data hk
    simp only [hashKey, String.data_append, ht] at hd
    exact String.ext (List.append_cancel_left hd)
  · intro hu ht hk
    apply ht
    have hd := congrArg String.data hk
    simp only [hashKey, String.data_append, hu] at hd
    exact String.ext
      (List.append_cancel_right (List.append_cancel_right hd))
  · intro hk
    exact congrArg (fun s => SHA256.sha256hex (utf8Bytes s)) hk

/-- Witness for C2: concretely, equal urls and different titles give
different hash keys. -/
theorem fingerprintKey_separator_witness :
    (⟨"t1", "", "u", "", "", none, none⟩ : Article).url =
        (⟨"t2", "", "u", "", "", none, none⟩ : Article).url ∧
    hashKey ⟨"t1", "", "u", "", "", none, none⟩ ≠
        hashKey ⟨"t2", "", "u", "", "", none, none⟩ :=
  ⟨rfl, (fingerprintKey_separator ⟨"t1", "", "u", "", "", none, none⟩
    ⟨"t2", "", "u", "", "", none, none⟩).2.1 rfl (by decide)⟩

/-! ### Claims about the history-exclusion safety valve (C1) -/

/-- C1 counterexample: deduped pool of two articles, history covering the
first, `top_n = 2`.  The excluded pool has 1 item; the spec's threshold is
`ceil(1.2) = 2`, so the claim demands the full pool, but the code's
threshold is `max(1, int(1.2)) = 1`, so it keeps the 1-item excluded
pool. -/
theorem historyValve_ceil_cex :
    historySelect
        [⟨"t1", "", "u1", "", "", none, some "f1"⟩,
         ⟨"t2", "", "u2", "", "", none, some "f2"⟩] ["f1"] 2 ≠
      specHistorySelect
        [⟨"t1", "", "u1", "", "", none, some "f1"⟩,
         ⟨"t2", "", "u2", "", "", none, some "f2"⟩] ["f1"] 2 := by
  decide

/-- C1 (amended): the deduplicator discards the history exclusion exactly
when the excluded pool is smaller than `max(1, int(top_n * 0.6))` — a
floor with a minimum of 1, not `ceil(0.6 * top_n)`; otherwise it passes
the history-excluded pool. -/
theorem historyValve_floor_threshold (deduped : List Article)
    (last_fps : List String) (top_n : Int) :
    (((deduped.filter
          (fun u => !(last_fps.contains (u.fingerprint.getD "")))).length : Int) <
          max 1 (Int.tdiv (3 * top_n) 5) →
        historySelect deduped last_fps top_n = deduped) ∧
    (max 1 (Int.tdiv (3 * top_n) 5) ≤
        ((deduped.filter
          (fun u => !(last_fps.contains (u.fingerprint.getD "")))).length : Int) →
        historySelect deduped last_fps top_n =
          deduped.filter
            (fun u => !(last_fps.contains (u.fingerprint.getD "")))) := by
  constructor
  · intro h
    simp only [historySelect, yieldThreshold]
    rw [if_pos h]
  · intro h
    simp only [historySelect, yieldThreshold]
    rw [if_neg (not_lt.2 h)]

/-- Witness for C1: a singleton pool fully covered by history falls below
the threshold for `top_n = 10`, so the valve restores the full pool. -/
theorem historyValve_floor_threshold_witness :
    ((([⟨"t", "", "u", "", "", none, some "a"⟩] : List Article).filter
        (fun u => !((["a"] : List String).contains (u.fingerprint.getD "")))).length : Int) <
        max 1 (Int.tdiv (3 * 10) 5) ∧
    historySelect [⟨"t", "", "u", "", "", none, some "a"⟩] ["a"] 10 =
      [⟨"t", "", "u", "", "", none, some "a"⟩] :=
  ⟨by decide,
   (historyValve_floor_threshold [⟨"t", "", "u", "", "", none, some "a"⟩]
     ["a"] 10).1 (by decide)⟩

/-! ### Claims about the category-filter safety valve (C5) -/

/-- C5 counterexample: two enriched items, one in the requested category,
`top_n = 2`.  The filtered sub-list has 1 item; the spec's threshold is
`ceil(1.2) = 2`, so the claim demands the unfiltered list, but the code's
threshold is `max(1, int(1.2)) = 1`, so it replaces the list with the
1-item filtered sub-list. -/
theorem categoryFilter_ceil_cex :
    filterStage (some ["tech"]) 2
        [⟨"a", "", "", "tech", "", none, none, 1, none⟩,
         ⟨"b", "", "", "world", "", none, none, 0, none⟩] ≠
      specFilterStage (some ["tech"]) 2
        [⟨"a", "", "", "tech", "", none, none, 1, none⟩,
         ⟨"b", "", "", "world", "", none, none, 0, none⟩] := by
  decide

/-- C5 (amended): with explicit categories, the filter replaces the
working list by the in-category sub-list exactly when that sub-list has at
least `max(1, int(top_n * 0.6))` items — a floor with a minimum of 1, not
`ceil(0.6 * top_n)`; otherwise the enriched list is kept unchanged. -/
theorem categoryFilter_floor_threshold (c0 : String) (rest : List String)
    (top_n : Int) (results : List Enriched) :
    (max 1 (Int.tdiv (3 * top_n) 5) ≤
        ((results.filter (fun r => (c0 :: rest).contains r.category)).length : Int) →
      filterStage (some (c0 :: rest)) top_n results =
        results.filter (fun r => (c0 :: rest).contains r.category)) ∧
    (((results.filter (fun r => (c0 :: rest).contains r.category)).length : Int) <
        max 1 (Int.tdiv (3 * top_n) 5) →
      filterStage (some (c0 :: rest)) top_n results = results) := by
  constructor
  · intro h
    simp only [filterStage, yieldThreshold]
    rw [if_pos h]
  · intro h
    simp only [filterStage, yieldThreshold]
    rw [if_neg (not_le.2 h)]

/-- Witness for C5: with `top_n = 10` a 2-item filtered sub-list is below
the threshold 6, so the unfiltered list is kept. -/
theorem categoryFilter_floor_threshold_witness :
    ((([⟨"a", "", "", "tech", "", none, none, 1, none⟩,
        ⟨"b", "", "", "world", "", none, none, 0, none⟩] : List Enriched).filter
        (fun r => (["tech"] : List String).contains r.category)).length : Int) <
        max 1 (Int.tdiv (3 * 10) 5) ∧
    filterStage (some ["tech"]) 10
        [⟨"a", "", "", "tech", "", none, none, 1, none⟩,
         ⟨"b", "", "", "world", "", none, none, 0, none⟩] =
      [⟨"a", "", "", "tech", "", none, none, 1, none⟩,
       ⟨"b", "", "", "world", "", none, none, 0, none⟩] :=
  ⟨by decide,
   (categoryFilter_floor_threshold "tech" [] 10
     [⟨"a", "", "", "tech", "", none, none, 1, none⟩,
      ⟨"b", "", "", "world", "", none, none, 0, none⟩]).2 (by decide)⟩

/-! ### Claims about the fetch request counts (C4) -/

/-- C4 counterexample: with the default category sample and `top_n = 4`,
every fetch is invoked requesting `max(3, 4 // 2) = 3 < top_n` items, so
the requested count is not `max(top_n, floor)` and does drop below
`top_n`. -/
theorem fetch_counts_cex : ¬ (∀ q ∈ fetchPlan 4 none, (4 : Int) ≤ q.2) := by
  decide

/-- C4 (amended): with explicit categories each fetch requests
`max(top_n, 5)` items, which is never below `top_n`; with the default
sample each fetch requests `max(3, top_n // 2)` items, which is never
below 3 but is strictly below `top_n` whenever `top_n ≥ 4`. -/
theorem fetch_counts (top_n : Int) :
    (∀ c0 rest q, q ∈ fetchPlan top_n (some (c0 :: rest)) →
      q.2 = max top_n 5 ∧ top_n ≤ q.2 ∧ 5 ≤ q.2) ∧
    (∀ q, q ∈ fetchPlan top_n none →
      q.2 = max 3 (Int.fdiv top_n 2) ∧ 3 ≤ q.2) ∧
    (4 ≤ top_n → max 3 (Int.fdiv top_n 2) < top_n) := by
  refine ⟨?_, ?_, ?_⟩
  · intro c0 rest q hq
    simp only [fetchPlan, List.mem_map] at hq
    obtain ⟨c, _, rfl⟩ := hq
    exact ⟨rfl, le_max_left _ _, le_max_right _ _⟩
  · intro q hq
    simp only [fetchPlan, List.mem_map] at hq
    obtain ⟨c, _, rfl⟩ := hq
    exact ⟨rfl, le_max_left _ _⟩
  · intro h
    rw [Int.fdiv_eq_ediv _ (by norm_num), max_lt_iff]
    omega

/-- Witness for C4: `top_n = 10`, explicit category `tech` requests 10,
and the default sample would request only 5. -/
theorem fetch_counts_witness :
    (("tech", (10 : Int)) ∈ fetchPlan 10 (some ["tech"]) ∧ (4 : Int) ≤ 10) ∧
    ((("tech", (10 : Int)).2 = max 10 5 ∧ (10 : Int) ≤ ("tech", (10 : Int)).2 ∧
        (5 : Int) ≤ ("tech", (10 : Int)).2) ∧
      max 3 (Int.fdiv 10 2) < 10) :=
  ⟨⟨by decide, by decide⟩,
   ⟨(fetch_counts 10).1 "tech" [] ("tech", 10) (by decide),
    (fetch_counts 10).2.2 (by decide)⟩⟩

/-! ### Claims about the ranker (C6) -/

theorem rankLe_trans (prefs : List String) (a b c : Enriched)
    (h1 : rankLe prefs a b = true) (h2 : rankLe prefs b c = true) :
    rankLe prefs a c = true := by
  simp only [rankLe, Bool.or_eq_true, Bool.and_eq_true, Bool.not_eq_true',
    beq_iff_eq, decide_eq_true_eq] at h1 h2 ⊢
  rcases h1 with ⟨h1a, h1b⟩ | ⟨h1k, h1c⟩ <;>
    rcases h2 with ⟨h2a, h2b⟩ | ⟨h2k, h2c⟩
  · rw [h1b] at h2a; exact absurd h2a (by simp)
  · exact Or.inl ⟨h1a, h2k ▸ h1b⟩
  · exact Or.inl ⟨h1k ▸ h2a, h2b⟩
  · exact Or.inr ⟨h1k.trans h2k, le_trans h1c h2c⟩

theorem rankLe_total (prefs : List String) (a b : Enriched) :
    (rankLe prefs a b || rankLe prefs b a) = true := by
  simp only [rankLe, Bool.or_eq_true, Bool.and_eq_true, Bool.not_eq_true',
    beq_iff_eq, decide_eq_true_eq]
  cases ha : notPref prefs a <;> cases hb : notPref prefs b <;>
    simp <;> exact le_total _ _

theorem rankLe_of_key_eq (prefs : List String) (a b : Enriched)
    (h : rankKey prefs a = rankKey prefs b) : rankLe prefs a b = true := by
  simp only [rankKey, Prod.mk.injEq] at h
  simp only [rankLe, Bool.or_eq_true, Bool.and_eq_true, Bool.not_eq_true',
    beq_iff_eq, decide_eq_true_eq]
  exact Or.inr ⟨h.1, le_of_eq h.2⟩

/-- C6: the ranker is the stable sort of its input by the ascending key
`(category not in preferred_categories, -confidence)`: the output is a
permutation of the input, consecutive output items are ordered by the key
(so preferred-category items precede non-preferred ones and, within a
group, higher confidence precedes lower), and any two items with equal
keys keep the relative order they had in the ranker's input. -/
theorem ranker_stable_sort (prefs : List String) (l : List Enriched) :
    (rank prefs l).Perm l ∧
    List.Pairwise (fun a b => rankLe prefs a b = true) (rank prefs l) ∧
    ∀ a b : Enriched, [a, b].Sublist l →
      rankKey prefs a = rankKey prefs b → [a, b].Sublist (rank prefs l) := by
  refine ⟨List.mergeSort_perm l _,
    List.sorted_mergeSort (rankLe_trans prefs) (rankLe_total prefs) l, ?_⟩
  intro a b hsub hkey
  exact List.pair_sublist_mergeSort (rankLe_trans prefs) (rankLe_total prefs)
    (rankLe_of_key_eq prefs a b hkey) hsub

/-- Witness for C6: two items, both outside the preferred categories and
with equal confidence, stay in input order in the ranked output. -/
theorem ranker_stable_sort_witness :
    rankKey ["sports"] ⟨"a", "", "", "tech", "", none, none, 1, none⟩ =
        rankKey ["sports"] ⟨"b", "", "", "world", "", none, none, 1, none⟩ ∧
    [(⟨"a", "", "", "tech", "", none, none, 1, none⟩ : Enriched),
     ⟨"b", "", "", "world", "", none, none, 1, none⟩].Sublist
      (rank ["sports"]
        [⟨"a", "", "", "tech", "", none, none, 1, none⟩,
         ⟨"b", "", "", "world", "", none, none, 1, none⟩]) :=
  ⟨by decide,
   (ranker_stable_sort ["sports"]
       [⟨"a", "", "", "tech", "", none, none, 1, none⟩,
        ⟨"b", "", "", "world", "", none, none, 1, none⟩]).2.2 _ _
     (List.Sublist.refl _) (by decide)⟩

/-! ### Claims about dedup non-emptiness (C8) -/

theorem one_le_yieldThreshold (top_n : Int) : 1 ≤ yieldThreshold top_n :=
  le_max_left _ _

theorem historySelect_nil (last_fps : List String) (top_n : Int) :
    historySelect [] last_fps top_n = [] := by
  simp [historySelect]

theorem historySelect_ne_nil (deduped : List Article) (last_fps : List String)
    (top_n : Int) (h : deduped ≠ []) :
    historySelect deduped last_fps top_n ≠ [] := by
  simp only [historySelect]
  split
  · exact h
  · rename_i hlt
    have h1 : (1 : Int) ≤
        ((deduped.filter
          (fun u => !(last_fps.contains (u.fingerprint.getD "")))).length : Int) :=
      le_trans (one_le_yieldThreshold top_n) (not_lt.1 hlt)
    apply List.ne_nil_of_length_pos
    omega

theorem dedupeStage_ne_nil (a : Article) (rest : List Article) :
    dedupeStage (a :: rest) ≠ [] := by
  simp [dedupeStage, dedupeGo, fingerprint_article_ne_empty a]

/-- C8: the pool handed to enrichment — intra-pool dedup, then history
exclusion with its safety valve, then the random reorder — is empty
exactly when the candidate pool was empty; a non-empty input never
collapses to an empty working pool. -/
theorem dedup_preserves_nonempty (collected : List Article)
    (last_fps : List String) (top_n : Int)
    (shuffle : List Article → List Article)
    (hs : ∀ l : List Article, (shuffle l).Perm l) :
    shuffle (historySelect (dedupeStage collected) last_fps top_n) = [] ↔
      collected = [] := by
  constructor
  · intro h
    have hx := hs (historySelect (dedupeStage collected) last_fps top_n)
    rw [h] at hx
    have h0 := hx.symm.eq_nil
    cases collected with
    | nil => rfl
    | cons a rest =>
        exact absurd h0
          (historySelect_ne_nil _ _ _ (dedupeStage_ne_nil a rest))
  · intro h
    subst h
    have h0 : dedupeStage ([] : List Article) = [] := rfl
    rw [h0, historySelect_nil]
    exact (hs []).eq_nil

/-- Witness for C8: a one-article pool with empty history stays non-empty
(with the identity permutation as the shuffle). -/
theorem dedup_preserves_nonempty_witness :
    (id (historySelect (dedupeStage [⟨"t", "", "u", "", "", none, none⟩]) [] 10) = [] ↔
      ([⟨"t", "", "u", "", "", none, none⟩] : List Article) = []) :=
  dedup_preserves_nonempty _ [] 10 id (fun l => List.Perm.refl l)

/-! ### Claims about the whole pipeline (C3, C9) -/

theorem doFetch_foldl_none (fetch : String → Int → Option (List Article))
    (hf : ∀ c n, fetch c n = none) (plan : List (String × Int)) :
    ∀ acc : List Article,
      plan.foldl
        (fun acc p =>
          match fetch p.1 p.2 with
          | some arts => acc ++ arts.map (setDefaultCategory p.1)
          | none => acc) acc = acc := by
  induction plan with
  | nil => intro acc; rfl
  | cons p ps ih =>
      intro acc
      simp only [List.foldl_cons, hf p.1 p.2]
      exact ih acc

theorem doFetch_none (fetch : String → Int → Option (List Article))
    (hf : ∀ c n, fetch c n = none) (plan : List (String × Int)) :
    doFetch fetch plan = [] :=
  doFetch_foldl_none fetch hf plan []

theorem filterStage_nil (cats : Option (List String)) (top_n : Int) :
    filterStage cats top_n [] = [] := by
  cases cats with
  | none => rfl
  | some l =>
      cases l with
      | nil => rfl
      | cons c cs => simp [filterStage]

theorem rank_nil (prefs : List String) : rank prefs [] = [] :=
  List.mergeSort_nil

theorem pySliceTo_nil (n : Int) : pySliceTo n ([] : List α) = [] := by
  simp [pySliceTo]

/-- C9: when the fetch collaborator raises for every queried category,
generate_briefing still returns a well-formed Briefing — the given
timestamp, the caller's user id, the normalized selected categories — with
an empty items list, instead of propagating the exception. -/
theorem briefing_on_total_fetch_failure
    (fetch : String → Int → Option (List Article))
    (categorize : String → String → String)
    (summarize : String → String → String → Nat → SummResult)
    (shuffle : List Article → List Article) (now : ℚ)
    (preferred_categories last_fps : List String) (user_id : String)
    (top_n : Int) (categories : Option (List String))
    (hf : ∀ c n, fetch c n = none)
    (hs : ∀ l : List Article, (shuffle l).Perm l) :
    generate_briefing fetch categorize summarize shuffle now
        preferred_categories last_fps user_id top_n categories =
      { generated_at := now, items := [], user_id := user_id,
        selected_categories := pyOrNil (normalizeCats categories) } := by
  have hsh : shuffle [] = [] := (hs []).eq_nil
  simp only [generate_briefing, doFetch_none fetch hf, dedupeStage, dedupeGo,
    historySelect_nil, hsh, List.map_nil, filterStage_nil, rank_nil,
    pySliceTo_nil]

/-- Witness for C9: the always-failing fetch yields the empty briefing for
concrete arguments. -/
theorem briefing_on_total_fetch_failure_witness :
    generate_briefing (fun _ _ => none) (fun _ _ => "tech")
        (fun _ _ _ _ => ⟨none, none, none⟩) id 7 ["sports"] ["f"] "alice" 5
        (some ["tech"]) =
      { generated_at := 7, items := [], user_id := "alice",
        selected_categories := pyOrNil (normalizeCats (some ["tech"])) } :=
  briefing_on_total_fetch_failure (fun _ _ => none) (fun _ _ => "tech")
    (fun _ _ _ _ => ⟨none, none, none⟩) id 7 ["sports"] ["f"] "alice" 5
    (some ["tech"]) (fun _ _ => rfl) (fun l => List.Perm.refl l)

/-- C3: contrary to the claim, generate_briefing never rejects
`top_n ≤ 0`: at `top_n = 0` the pipeline runs to completion and returns a
normal Briefing whose items list is empty (`results[:0]`), for every
choice of collaborators — there is no contract-violation error anywhere in
the code. -/
theorem generate_briefing_top_n_zero
    (fetch : String → Int → Option (List Article))
    (categorize : String → String → String)
    (summarize : String → String → String → Nat → SummResult)
    (shuffle : List Article → List Article) (now : ℚ)
    (preferred_categories last_fps : List String) (user_id : String)
    (categories : Option (List String)) :
    (generate_briefing fetch categorize summarize shuffle now
        preferred_categories last_fps user_id 0 categories).items = [] ∧
    (generate_briefing fetch categorize summarize shuffle now
        preferred_categories last_fps user_id 0 categories).user_id =
      user_id := by
  constructor
  · simp [generate_briefing, pySliceTo]
  · simp [generate_briefing]

/-! ### Claim about the rss_fetcher category fallback (C10) -/

/-- C10: a category whose lower-cased form misses the feed table under all
three tolerant lookups (`cat`, `cat.rstrip("s")`, `cat + "s"`) selects the
`tech` feed list, and `fetch_rss` then behaves exactly as a fetch of the
`tech` category; a `None` or empty category likewise resolves to the
`tech` feeds. -/
theorem fetch_rss_unknown_category_fallback
    (parseFeed : String → Int → List Article)
    (shuffle : List Article → List Article) (c : String) (num : Int)
    (hc : c ≠ "")
    (h1 : dictGet (pyLower c) = none)
    (h2 : dictGet (pyRstripS (pyLower c)) = none)
    (h3 : dictGet (pyLower c ++ "s") = none) :
    (selectFeeds (some c) = (dictGet "tech").getD [] ∧
      fetch_rss parseFeed shuffle (some c) num =
        fetch_rss parseFeed shuffle (some "tech") num) ∧
    (selectFeeds none = (dictGet "tech").getD [] ∧
      fetch_rss parseFeed shuffle none num =
        fetch_rss parseFeed shuffle (some "tech") num) ∧
    (selectFeeds (some "") = (dictGet "tech").getD [] ∧
      fetch_rss parseFeed shuffle (some "") num =
        fetch_rss parseFeed shuffle (some "tech") num) := by
  have htech : selectFeeds (some "tech") = (dictGet "tech").getD [] := by
    decide
  have hnone : selectFeeds none = (dictGet "tech").getD [] := by decide
  have hempty : selectFeeds (some "") = (dictGet "tech").getD [] := by decide
  have hsel : selectFeeds (some c) = (dictGet "tech").getD [] := by
    simp only [selectFeeds, if_neg hc, h1, h2, h3, pyOrFeeds]
  refine ⟨⟨hsel, ?_⟩, ⟨hnone, ?_⟩, hempty, ?_⟩
  · simp only [fetch_rss, hsel, htech]
  · simp only [fetch_rss, hnone, htech]
  · simp only [fetch_rss, hempty, htech]

/-- Witness for C10: the category `"nonexistent"` misses all three
lookups and falls back to the `tech` feeds. -/
theorem fetch_rss_unknown_category_fallback_witness :
    dictGet (pyLower "nonexistent") = none ∧
    selectFeeds (some "nonexistent") = (dictGet "tech").getD [] :=
  ⟨by decide,
   ((fetch_rss_unknown_category_fallback (fun _ _ => []) id "nonexistent" 5
     (by decide) (by decide) (by decide) (by decide)).1).1⟩

end NewsBriefing
